import Mathlib

/-
Shallow embedding of src/noteTrans.py (abc_to_kalimba_music21), covering the
note-to-tine mapping core: the reference table NOTE_TO_KALIMBA, the profile
builder build_kalimba_map, the per-name resolver map_note_to_kalimba, the
note-extraction loop of parse_abc_file (with its surrounding try/except), and
the no-valid-notes gate of main.  Python dicts are modelled as insertion-
ordered association lists; Python ints as Int; the external score loader
(music21 converter.parse and score.recurse) as an Except-valued input whose
error constructors stand for raised exceptions.  Strike glyphs are kept as
the source's literal strings: "▲" is the spec's `up`, "▼" is `down`.
-/

namespace NoteTrans

/-- The 24-entry reference table `NOTE_TO_KALIMBA` of src/noteTrans.py, an
insertion-ordered dict from pitch name to 1-based tine index. -/
def NOTE_TO_KALIMBA : List (String × Int) :=
  [("C2", 1), ("D2", 2), ("E2", 3), ("F2", 4),
   ("G2", 5), ("A2", 6), ("B2", 7),
   ("C3", 8), ("D3", 9), ("E3", 10), ("F3", 11),
   ("G3", 12), ("A3", 13), ("B3", 14),
   ("C4", 15), ("D4", 16), ("E4", 17), ("F4", 18),
   ("G4", 19), ("A4", 20), ("B4", 21),
   ("C5", 22), ("D5", 23), ("E5", 24)]

/-- Python dict lookup (`name in d` / `d[name]`) on an association list:
first binding wins (dict keys are unique anyway). -/
def dictLookup (k : String) : List (String × Int) → Option Int
  | [] => none
  | p :: rest => if p.1 = k then some p.2 else dictLookup k rest

/-- `build_kalimba_map(max_tines)`: keep the entries of `NOTE_TO_KALIMBA`
whose tine index is at most `max_tines` (dict comprehension, line 41). -/
def build_kalimba_map (max_tines : Int) : List (String × Int) :=
  NOTE_TO_KALIMBA.filter (fun p => p.2 ≤ max_tines)

/-- Python `"".join(filter(str.isalpha, s))`: the alphabetic characters of
`s`, in order. -/
def strAlpha (s : String) : String := String.mk (s.toList.filter Char.isAlpha)

/-- Python `"".join(filter(str.isdigit, s))`: the digit characters of `s`,
in order. -/
def strDigits (s : String) : String := String.mk (s.toList.filter Char.isDigit)

/-- Python `int(s)` on a string of decimal digits. -/
def digitsToNat (s : String) : Nat :=
  s.toList.foldl (fun a c => 10 * a + (c.toNat - 48)) 0

/-- The octave-lowered respelling `f"{base}{octave - 1}"` of a note name
(lines 52-59 and 113-123): the alphabetic part of the name - which silently
discards an accidental such as `#` - followed by the decimal rendering of
its digit part minus one. -/
def shifted_name (note_name : String) : String :=
  strAlpha note_name ++ toString ((digitsToNat (strDigits note_name) : Int) - 1)

/-- `map_note_to_kalimba(note_name, kalimba_notes)` (lines 44-64): direct
lookup of the name, else (unconditionally - no policy is consulted here)
retry one octave lower via `shifted_name`; `None` when the digit part is
empty or both lookups miss. -/
def map_note_to_kalimba (note_name : String) (kalimba_notes : List (String × Int)) :
    Option Int :=
  match dictLookup note_name kalimba_notes with
  | some v => some v
  | none =>
    if strDigits note_name = "" then none
    else dictLookup (shifted_name note_name) kalimba_notes

/-- The `mapped_note` value of lines 119-129: `map_note_to_kalimba` on the
raw name, and when that is `None` under the `"shift_down"` policy, a second
call of `map_note_to_kalimba` on the already once-lowered name. -/
def resolve_note (kalimba_notes : List (String × Int)) (policy : String)
    (raw_note : String) : Option Int :=
  match map_note_to_kalimba raw_note kalimba_notes with
  | some v => some v
  | none =>
    if policy = "shift_down" then
      map_note_to_kalimba (shifted_name raw_note) kalimba_notes
    else none

/-- The body of the per-element loop of `parse_abc_file` (lines 110-133) for
one `nameWithOctave` string: skip the note when it has no digit characters
(lines 115-116); otherwise resolve it, and emit the `(tine, glyph)` pair
when the result is truthy (non-`None` and non-zero, line 131), with glyph
"▲" for an even tine index and "▼" for an odd one (line 132). -/
def process_note (kalimba_notes : List (String × Int)) (policy : String)
    (raw_note : String) : Option (Int × String) :=
  if strDigits raw_note = "" then none
  else
    match resolve_note kalimba_notes policy raw_note with
    | none => none
    | some m => if m = 0 then none else some (m, if m % 2 = 0 then "▲" else "▼")

/-- The note-extraction loop of `parse_abc_file`, with the accumulating list
`kalimba_notes_list` made explicit (appends at the end, as the source's
`list.append`). -/
def parse_loop (kalimba_notes : List (String × Int)) (policy : String) :
    List (Int × String) → List String → List (Int × String)
  | acc, [] => acc
  | acc, n :: rest =>
    match process_note kalimba_notes policy n with
    | some m => parse_loop kalimba_notes policy (acc ++ [m]) rest
    | none => parse_loop kalimba_notes policy acc rest

/-- `parse_abc_file`'s extraction restricted to a score whose traversal
raises no exception: the loop run on the ordered note names. -/
def parse_abc_notes (kalimba_notes : List (String × Int)) (policy : String)
    (notes : List String) : List (Int × String) :=
  parse_loop kalimba_notes policy [] notes

/-- One element yielded by `score.recurse()` in `parse_abc_file`: either the
note's `nameWithOctave` string, or an exception raised while handling that
element (modelling the external music21 objects, whose attribute accesses
may raise inside the try block). -/
abbrev ScoreElem := Except String String

/-- The try-block body of `parse_abc_file` over the traversal: an exception
raised at any element aborts the loop and propagates (to be caught by the
enclosing except), discarding whatever `kalimba_notes_list` held. -/
def run_score (kalimba_notes : List (String × Int)) (policy : String) :
    List (Int × String) → List ScoreElem → Except String (List (Int × String))
  | acc, [] => Except.ok acc
  | _, Except.error e :: _ => Except.error e
  | acc, Except.ok n :: rest =>
    match process_note kalimba_notes policy n with
    | some m => run_score kalimba_notes policy (acc ++ [m]) rest
    | none => run_score kalimba_notes policy acc rest

/-- `parse_abc_file(file_path, kalimba_notes, policy)` (lines 98-139): the
score input is `Except.error` when `converter.parse` itself raises; any
exception, from the parse or from the traversal, is caught by the except
clause, which returns the empty list. -/
def parse_abc_file (kalimba_notes : List (String × Int)) (policy : String)
    (score : Except String (List ScoreElem)) : List (Int × String) :=
  match score with
  | Except.error _ => []
  | Except.ok elems =>
    match run_score kalimba_notes policy [] elems with
    | Except.error _ => []
    | Except.ok l => l

/-- Outcome of `main` (lines 142-164): either the early return at
"No valid notes found" (no SVG, no PDF written), or the tablature content
handed to `generate_svg` and then to the PDF exporter. -/
inductive MainResult where
  | noValidNotes
  | produced (tab : List (Int × String))
  deriving DecidableEq

/-- `main(input_abc, output_pdf, kalimba_size, octave_policy)`: build the
profile, extract the notes, and return before producing any output file
when the extracted list is empty. -/
def main (score : Except String (List ScoreElem)) (kalimba_size : Int)
    (octave_policy : String) : MainResult :=
  let kalimba_notes := build_kalimba_map kalimba_size
  let notes := parse_abc_file kalimba_notes octave_policy score
  if notes = [] then MainResult.noValidNotes else MainResult.produced notes

/-! ### Helper lemmas -/

/-- A successful dict lookup returns a binding of the dict. -/
theorem dictLookup_mem {t : List (String × Int)} {k : String} {v : Int}
    (h : dictLookup k t = some v) : (k, v) ∈ t := by
  induction t with
  | nil => exact absurd h (by simp [dictLookup])
  | cons p rest ih =>
    rw [dictLookup] at h
    by_cases hk : p.1 = k
    · rw [if_pos hk] at h
      have hv : p.2 = v := by injection h
      have hp : (k, v) = p := by
        cases p
        simp only [Prod.mk.injEq]
        exact ⟨hk.symm, hv.symm⟩
      rw [hp]
      exact List.mem_cons_self _ _
    · rw [if_neg hk] at h
      exact List.mem_cons_of_mem _ (ih h)

/-- Membership in the built profile unpacked to the reference table. -/
theorem mem_build_kalimba_map {N : Int} {p : String × Int} :
    p ∈ build_kalimba_map N ↔ p ∈ NOTE_TO_KALIMBA ∧ p.2 ≤ N := by
  simp [build_kalimba_map, List.mem_filter]

/-- Every reference-table tine index lies in `[1, 24]`. -/
theorem note_to_kalimba_bounds : ∀ p ∈ NOTE_TO_KALIMBA, 1 ≤ p.2 ∧ p.2 ≤ 24 := by
  decide

/-- Every reference-table key contains a digit character. -/
theorem note_to_kalimba_keys_digits : ∀ p ∈ NOTE_TO_KALIMBA, ¬ strDigits p.1 = "" := by
  decide

/-- Any value returned by `map_note_to_kalimba` is a value of the table. -/
theorem map_note_value_mem {name : String} {t : List (String × Int)} {v : Int}
    (h : map_note_to_kalimba name t = some v) : ∃ k, (k, v) ∈ t := by
  unfold map_note_to_kalimba at h
  split at h
  · next v0 hd =>
    cases h
    exact ⟨name, dictLookup_mem hd⟩
  · split at h
    · exact absurd h (by simp)
    · exact ⟨shifted_name name, dictLookup_mem h⟩

/-- Any value returned by `resolve_note` is a value of the table. -/
theorem resolve_note_value_mem {t : List (String × Int)} {p n : String} {v : Int}
    (h : resolve_note t p n = some v) : ∃ k, (k, v) ∈ t := by
  unfold resolve_note at h
  split at h
  · next v0 hd =>
    cases h
    exact map_note_value_mem hd
  · split at h
    · exact map_note_value_mem h
    · exact absurd h (by simp)

/-- Shape of a successful `process_note`: the emitted pair carries a nonzero
value of `resolve_note` and the parity glyph. -/
theorem process_note_some {t : List (String × Int)} {p n : String} {m : Int × String}
    (h : process_note t p n = some m) :
    ∃ v, resolve_note t p n = some v ∧ ¬ v = 0 ∧
      m = (v, if v % 2 = 0 then "▲" else "▼") := by
  unfold process_note at h
  split at h
  · exact absurd h (by simp)
  · split at h
    · exact absurd h (by simp)
    · next v hv =>
      split at h
      · exact absurd h (by simp)
      · next hz => exact ⟨v, hv, hz, (Option.some.inj h).symm⟩

/-- The extraction loop equals a `filterMap`, whatever the accumulator. -/
theorem parse_loop_eq (t : List (String × Int)) (p : String)
    (acc : List (Int × String)) (ns : List String) :
    parse_loop t p acc ns = acc ++ ns.filterMap (process_note t p) := by
  induction ns generalizing acc with
  | nil => simp [parse_loop]
  | cons n rest ih =>
    cases h : process_note t p n with
    | none => simp [parse_loop, h, ih]
    | some m => simp [parse_loop, h, ih]

/-- `parse_abc_notes` is the `filterMap` of `process_note`. -/
theorem parse_abc_notes_eq_filterMap (t : List (String × Int)) (p : String)
    (ns : List String) :
    parse_abc_notes t p ns = ns.filterMap (process_note t p) := by
  simp [parse_abc_notes, parse_loop_eq]

/-- An exception element anywhere in the traversal makes the try block
propagate an error, whatever was accumulated before it. -/
theorem run_score_error (t : List (String × Int)) (p : String)
    (xs : List ScoreElem) (e : String) (ys : List ScoreElem) :
    ∀ acc, ∃ e2, run_score t p acc (xs ++ Except.error e :: ys) = Except.error e2 := by
  induction xs with
  | nil => exact fun acc => ⟨e, rfl⟩
  | cons x rest ih =>
    intro acc
    cases x with
    | error e0 => exact ⟨e0, rfl⟩
    | ok n =>
      rw [List.cons_append, run_score]
      cases h : process_note t p n with
      | none => simpa [h] using ih acc
      | some m => simpa [h] using ih (acc ++ [m])

/-- On an exception-free traversal the try block returns the loop's list. -/
theorem run_score_ok (t : List (String × Int)) (p : String) (ns : List String) :
    ∀ acc, run_score t p acc (ns.map Except.ok) = Except.ok (parse_loop t p acc ns) := by
  induction ns with
  | nil => exact fun acc => rfl
  | cons n rest ih =>
    intro acc
    rw [List.map_cons, run_score, parse_loop]
    cases h : process_note t p n with
    | none => simp [h, ih]
    | some m => simp [h, ih]

/-! ### Claim theorems -/

/-- C1: the claim says that under `octave_policy = ignore` a note whose name
is absent from the tine table is dropped with no recomputation and no lookup
of any other name.  The code refutes it: `map_note_to_kalimba` applies its
octave fallback unconditionally, so on the 7-tine table the absent name C3
is looked up again as C2 and emitted as tine 1 even under `ignore`. -/
theorem C1_ignore_policy_still_shifts :
    dictLookup "C3" (build_kalimba_map 7) = none ∧
    process_note (build_kalimba_map 7) "ignore" "C3" = some (1, "▼") := by
  exact ⟨by decide, by decide⟩

/-- C2: the claim says `shift_down` applies the octave fallback at most once,
so a note two or more octaves above the table's range is never mapped.  The
code refutes it: on the 7-tine table (range C2-B2), C4 misses directly and
at C3 inside the first `map_note_to_kalimba` call, and the policy retry on
C3 shifts once more inside the second call, matching C2 - two shifts. -/
theorem C2_shift_down_double_shifts :
    dictLookup "C4" (build_kalimba_map 7) = none ∧
    dictLookup "C3" (build_kalimba_map 7) = none ∧
    process_note (build_kalimba_map 7) "shift_down" "C4" = some (1, "▼") := by
  exact ⟨by decide, by decide, by decide⟩

/-- C3: the claim says lookups are literal with no accidental equivalence,
so C#4 can only match a table entry spelled C#3 after a shift.  The code
refutes it: the fallback's alphabetic filter discards the `#`, the shifted
respelling of C#4 is the natural C3, and the 17-tine table maps C#4 to tine
8 (the entry for C3) under any policy. -/
theorem C3_accidental_discarded :
    dictLookup "C#4" (build_kalimba_map 17) = none ∧
    dictLookup "C#3" (build_kalimba_map 17) = none ∧
    shifted_name "C#4" = "C3" ∧
    dictLookup "C3" (build_kalimba_map 17) = some 8 ∧
    process_note (build_kalimba_map 17) "ignore" "C#4" = some (8, "▲") := by
  exact ⟨by decide, by decide, by decide, by decide, by decide⟩

/-- C4: a note whose name is directly present in the built tine table is
emitted exactly once with the table's value and the parity glyph, and every
emitted pair has glyph "▼" (down) exactly when its tine index is odd and
"▲" (up) exactly when it is even. -/
theorem C4_direct_lookup_and_parity :
    (∀ (N : Int) (policy name : String) (v : Int),
        dictLookup name (build_kalimba_map N) = some v →
        process_note (build_kalimba_map N) policy name =
          some (v, if v % 2 = 0 then "▲" else "▼")) ∧
    (∀ (t : List (String × Int)) (p : String) (ns : List String) (m : Int × String),
        m ∈ parse_abc_notes t p ns →
        ((m.2 = "▼" ↔ ¬ m.1 % 2 = 0) ∧ (m.2 = "▲" ↔ m.1 % 2 = 0))) := by
  constructor
  · intro N policy name v h
    have hrec := mem_build_kalimba_map.mp (dictLookup_mem h)
    have hdig : ¬ strDigits name = "" := note_to_kalimba_keys_digits _ hrec.1
    have hb := note_to_kalimba_bounds _ hrec.1
    have hv0 : ¬ v = 0 := by
      have : (1 : Int) ≤ v := hb.1
      omega
    unfold process_note resolve_note map_note_to_kalimba
    rw [if_neg hdig, h]
    simp [hv0]
  · intro t p ns m hm
    rw [parse_abc_notes_eq_filterMap] at hm
    obtain ⟨n, hn, hpn⟩ := List.mem_filterMap.mp hm
    obtain ⟨v, hres, hv0, hmeq⟩ := process_note_some hpn
    subst hmeq
    by_cases hpar : v % 2 = 0 <;> simp [hpar]

/-- Witness for C4: on the 17-tine table the name C2 is a direct hit at tine
1 (odd, glyph down). -/
theorem C4_direct_lookup_and_parity_witness :
    process_note (build_kalimba_map 17) "ignore" "C2" =
      some (1, if (1 : Int) % 2 = 0 then "▲" else "▼") ∧
    ((((1 : Int), ("▼" : String)).2 = "▼" ↔ ¬ ((1 : Int), ("▼" : String)).1 % 2 = 0) ∧
     (((1 : Int), ("▼" : String)).2 = "▲" ↔ ((1 : Int), ("▼" : String)).1 % 2 = 0)) :=
  ⟨C4_direct_lookup_and_parity.1 17 "ignore" "C2" 1 (by decide),
   C4_direct_lookup_and_parity.2 (build_kalimba_map 17) "shift_down" ["C2"]
     (1, "▼") (by decide)⟩

/-- The profile built with 24 or more tines is the whole reference table. -/
theorem build_kalimba_map_ge24 {N : Int} (h : 24 ≤ N) :
    build_kalimba_map N = NOTE_TO_KALIMBA := by
  apply List.filter_eq_self.mpr
  intro a ha
  have h24 := (note_to_kalimba_bounds a ha).2
  simpa using le_trans h24 h

/-- C5: for a nonnegative tine_count N the built profile keeps exactly
min(N, 24) entries, exactly the reference entries with index at most N, and
its index sequence is the contiguous run 1..min(N, 24) in increasing
order. -/
theorem C5_profile_truncation (N : Int) (h : 0 ≤ N) :
    (build_kalimba_map N).length = min N.toNat 24 ∧
    (∀ p : String × Int, p ∈ build_kalimba_map N ↔ p ∈ NOTE_TO_KALIMBA ∧ p.2 ≤ N) ∧
    (build_kalimba_map N).map Prod.snd =
      (List.range (min N.toNat 24)).map (fun i => (i : Int) + 1) := by
  have key : (build_kalimba_map N).length = min N.toNat 24 ∧
      (build_kalimba_map N).map Prod.snd =
        (List.range (min N.toNat 24)).map (fun i => (i : Int) + 1) := by
    rcases lt_or_le N 24 with hlt | hge
    · interval_cases N <;> exact ⟨by decide, by decide⟩
    · have hmin : min N.toNat 24 = 24 := Nat.min_eq_right (by omega)
      rw [build_kalimba_map_ge24 hge, hmin]
      exact ⟨by decide, by decide⟩
  exact ⟨key.1, fun p => mem_build_kalimba_map, key.2⟩

/-- Witness for C5 at tine_count 7: the profile keeps min(7, 24) = 7
entries. -/
theorem C5_profile_truncation_witness :
    (build_kalimba_map 7).length = min (7 : Int).toNat 24 :=
  (C5_profile_truncation 7 (by decide)).1

/-- C6: extraction is an order-preserving sequence transform - it maps
concatenation to concatenation, equals the `filterMap` of the per-note
mapper (so drops leave no placeholder and duplicates are kept), and the
scenario [C2, D2, C2] at tine_count 17 yields [(1, down), (2, up),
(1, down)]. -/
theorem C6_order_preserving :
    (∀ (t : List (String × Int)) (p : String) (xs ys : List String),
        parse_abc_notes t p (xs ++ ys) =
          parse_abc_notes t p xs ++ parse_abc_notes t p ys) ∧
    (∀ (t : List (String × Int)) (p : String) (ns : List String),
        parse_abc_notes t p ns = ns.filterMap (process_note t p)) ∧
    parse_abc_notes (build_kalimba_map 17) "shift_down" ["C2", "D2", "C2"] =
      [(1, "▼"), (2, "▲"), (1, "▼")] := by
  refine ⟨?_, parse_abc_notes_eq_filterMap, by decide⟩
  intro t p xs ys
  rw [parse_abc_notes_eq_filterMap, parse_abc_notes_eq_filterMap,
    parse_abc_notes_eq_filterMap, List.filterMap_append]

/-- C7: every emitted pair has a tine index in [1, N] (hence at most 24, the
reference table size) and one of the two glyphs, for every tine_count N,
policy and input sequence. -/
theorem C7_emitted_in_range (N : Int) (policy : String) (notes : List String)
    (m : Int × String)
    (hm : m ∈ parse_abc_notes (build_kalimba_map N) policy notes) :
    1 ≤ m.1 ∧ m.1 ≤ N ∧ m.1 ≤ 24 ∧ (m.2 = "▲" ∨ m.2 = "▼") := by
  rw [parse_abc_notes_eq_filterMap] at hm
  obtain ⟨n, hn, hpn⟩ := List.mem_filterMap.mp hm
  obtain ⟨v, hres, hv0, hmeq⟩ := process_note_some hpn
  obtain ⟨k, hk⟩ := resolve_note_value_mem hres
  have hrec := mem_build_kalimba_map.mp hk
  have hb := note_to_kalimba_bounds _ hrec.1
  subst hmeq
  refine ⟨hb.1, hrec.2, hb.2, ?_⟩
  by_cases hpar : v % 2 = 0
  · left
    simp [hpar]
  · right
    simp [hpar]

/-- Witness for C7: the pair emitted for C2 at tine_count 17 under
shift_down. -/
theorem C7_emitted_in_range_witness :
    1 ≤ ((1 : Int), ("▼" : String)).1 ∧ ((1 : Int), ("▼" : String)).1 ≤ 17 ∧
      ((1 : Int), ("▼" : String)).1 ≤ 24 ∧
      (((1 : Int), ("▼" : String)).2 = "▲" ∨ ((1 : Int), ("▼" : String)).2 = "▼") :=
  C7_emitted_in_range 17 "shift_down" ["C2"] (1, "▼") (by decide)

/-- C8: a note name with no digit characters is dropped by the loop under
every table and policy - no pair is emitted for it and the remaining notes
are processed unchanged (the total model raises nothing: the int conversion
is guarded by the digit check of lines 115-116). -/
theorem C8_no_digits_dropped (t : List (String × Int)) (p : String) (name : String)
    (h : strDigits name = "") :
    process_note t p name = none ∧
    ∀ ns : List String, parse_abc_notes t p (name :: ns) = parse_abc_notes t p ns := by
  have h1 : process_note t p name = none := by
    unfold process_note
    rw [if_pos h]
  refine ⟨h1, fun ns => ?_⟩
  rw [parse_abc_notes_eq_filterMap, parse_abc_notes_eq_filterMap]
  simp [List.filterMap_cons, h1]

/-- Witness for C8: the octave-less name C is dropped on the 17-tine
table. -/
theorem C8_no_digits_dropped_witness :
    strDigits "C" = "" ∧ process_note (build_kalimba_map 17) "shift_down" "C" = none :=
  ⟨by decide, (C8_no_digits_dropped (build_kalimba_map 17) "shift_down" "C" (by decide)).1⟩

/-- C9: a failed source parse is caught and yields the empty extracted list,
and `main` reaches its no-valid-notes early return - producing no output
artifact - exactly when the extracted list is empty. -/
theorem C9_no_valid_notes_gate :
    (∀ (t : List (String × Int)) (p e : String),
        parse_abc_file t p (Except.error e) = []) ∧
    (∀ (score : Except String (List ScoreElem)) (size : Int) (policy : String),
        main score size policy = MainResult.noValidNotes ↔
          parse_abc_file (build_kalimba_map size) policy score = []) := by
  constructor
  · intro t p e
    rfl
  · intro score size policy
    unfold main
    by_cases h : parse_abc_file (build_kalimba_map size) policy score = []
    · simp [h]
    · simp [h]

/-- Witness for C9: a raising parse at tine_count 17 yields the empty list
and the no-valid-notes outcome. -/
theorem C9_no_valid_notes_gate_witness :
    parse_abc_file (build_kalimba_map 17) "shift_down" (Except.error "boom") = [] ∧
    (main (Except.error "boom") 17 "shift_down" = MainResult.noValidNotes ↔
      parse_abc_file (build_kalimba_map 17) "shift_down" (Except.error "boom") = []) :=
  ⟨C9_no_valid_notes_gate.1 (build_kalimba_map 17) "shift_down" "boom",
   C9_no_valid_notes_gate.2 (Except.error "boom") 17 "shift_down"⟩

/-- C10: extraction is all-or-nothing - an exception raised at any element
of the traversal, even after earlier elements were already mapped, makes
`parse_abc_file` return the empty list, never a partial result. -/
theorem C10_all_or_nothing (t : List (String × Int)) (p : String)
    (xs : List ScoreElem) (e : String) (ys : List ScoreElem) :
    parse_abc_file t p (Except.ok (xs ++ Except.error e :: ys)) = [] := by
  obtain ⟨e2, he2⟩ := run_score_error t p xs e ys []
  simp only [parse_abc_file, he2]

end NoteTrans
